import Mathlib

/-!
Verification of the scheidingsdesk-subscription-manager HTTP handlers.

The repository contains three Azure Functions handlers plus a trivial test
endpoint:

* a legacy JSON webhook handler `initializeRecurringPayment` (JSON body with
  a `customerId` and a `success` flag, trusted as-is);
* a canonical form-encoded webhook handler `initializeRecurringPayment`
  (form body `id=tr_xxx`; the payment status is verified by a lookup against
  the payment provider before any subscription is created);
* an initial-subscription creator `initializeSubscription` (JSON body with
  `email`, optional `name`, optional `amount`);
* `subscriptionValidatorTest`, which always answers `true`.

The embedding below is shallow: each external HTTP call (payment lookup,
subscription creation, record-store write, customer creation, payment
creation) is a field of an environment structure returning
`Except ErrObj α`, where `ErrObj` carries the fields the catch blocks
inspect (`error.response?.status`, `error.response?.data?.detail`,
`error.message`).  A handler returns the HTTP response together with the
list of external calls it issued, in order, including a call that raised.
JavaScript truthiness of `||` defaults is modelled explicitly (`0` and the
empty string are falsy).  Invocation time is modelled as a day count
`now : Nat`; the TypeScript `startDate.setDate(startDate.getDate() + 30)`
followed by taking the date part of `toISOString()` is modelled as
`now + 30`.
-/

/-- Error object thrown by a failing step, restricted to the fields the
TypeScript catch blocks read: `error.response?.status`,
`error.response?.data?.detail` and `error.message`.  `none` models an
absent (`undefined`) field. -/
structure ErrObj where
  responseStatus : Option Nat
  responseDetail : Option String
  message : Option String
deriving DecidableEq, Repr

/-- JavaScript `a || b` for an optionally-present number: `undefined` and
`0` are falsy and yield the default. -/
def jsOrNat : Option Nat → Nat → Nat
  | none, d => d
  | some v, d => if v = 0 then d else v

/-- JavaScript `a || b` for an optionally-present string: `undefined` and
the empty string are falsy and yield the default. -/
def jsOrStr : Option String → String → String
  | none, d => d
  | some v, d => if v = "" then d else v

/-- Body of an HTTP response produced by one of the handlers; one
constructor per distinct response shape appearing in the source. -/
inductive RespBody where
  /-- `body: JSON.stringify(\x7b error \x7d)` on a 400 input error. -/
  | errorOnly (error : String)
  /-- `jsonBody: \x7b received: true \x7d` acknowledging a non-paid webhook. -/
  | received
  /-- `jsonBody: \x7b success: true \x7d` from the webhook handlers. -/
  | successOnly
  /-- `jsonBody: \x7b success: false, error \x7d` from a catch block. -/
  | failure (error : String)
  /-- `jsonBody: \x7b success: true, customerId, paymentId, checkoutUrl \x7d`. -/
  | creatorSuccess (customerId : String) (paymentId : String) (checkoutUrl : String)
deriving DecidableEq, Repr

/-- An `HttpResponseInit`: status code and body. -/
structure HttpResponse where
  status : Nat
  body : RespBody
deriving DecidableEq, Repr

/-- The response built by every catch block in the source:
`status = error.response?.status || 500` and
`error = error.response?.data?.detail || error.message || "Unknown error"`. -/
def catchResp (e : ErrObj) : HttpResponse :=
  { status := jsOrNat e.responseStatus 500
    body := RespBody.failure (jsOrStr e.responseDetail (jsOrStr e.message "Unknown error")) }

/-- Splitting of a character list on a separator character; structural
recursion so that concrete instances evaluate inside the kernel. -/
def splitOnChar (sep : Char) : List Char → List (List Char)
  | [] => [[]]
  | c :: cs =>
    match splitOnChar sep cs with
    | [] => if c = sep then [[], []] else [[c]]
    | r :: rs => if c = sep then [] :: r :: rs else (c :: r) :: rs

/-- Split of one `key=value` segment at its first `=`; a segment without
`=` is a key with empty value. -/
def splitPair (kv : List Char) : String × String :=
  let key := kv.takeWhile (fun c => !(c = Char.ofNat 61))
  match kv.drop key.length with
  | [] => (⟨key⟩, "")
  | _ :: v => (⟨key⟩, ⟨v⟩)

/-- Key-value pairs of a URL-encoded form body, as
`new URLSearchParams(bodyText)` produces them: split on `&`, empty
segments dropped, each segment split at its first `=` (a segment without
`=` is a key with empty value).  Percent-decoding is not modelled; the
payment identifiers at issue contain no escape sequences. -/
def formPairs (s : String) : List (String × String) :=
  (splitOnChar (Char.ofNat 38) s.toList).filterMap fun kv =>
    if kv = [] then none
    else some (splitPair kv)

/-- `new URLSearchParams(s).get(k)`: the value of the first pair with key
`k`, or `none`. -/
def formGet (s k : String) : Option String :=
  (List.filter (fun p => p.fst = k) (formPairs s)).head?.map Prod.snd

/-- A Payment Record fetched from the payment provider
(`mollieClient.payments.get`).  The source casts `payment.customerId`
to `string`, so it is modelled as a plain string. -/
structure Payment where
  id : String
  status : String
  customerId : String
deriving DecidableEq, Repr

/-- A created Subscription Record
(`mollieClient.customerSubscriptions.create` result); only its `status`
is read by the handlers. -/
structure Subscription where
  status : String
deriving DecidableEq, Repr

/-- Parameters the handlers pass to
`mollieClient.customerSubscriptions.create`. -/
structure SubParams where
  customerId : String
  currency : String
  value : String
  times : Nat
  interval : String
  startDate : Nat
  description : String
  webhookUrl : String
deriving DecidableEq, Repr

/-- One external call issued by a webhook handler, with its arguments. -/
inductive Call where
  | getPayment (id : String)
  | createSubscription (p : SubParams)
  | updateDataverse (customerId : String) (flag : Bool)
deriving DecidableEq, Repr

/-- Whether a call is the subscription-creation operation. -/
def Call.isCreateSub : Call → Bool
  | .createSubscription _ => true
  | _ => false

/-- Environment of the webhook handlers: the external operations they may
invoke (each may raise), the invocation time in days, and the module-scope
configuration values `RECURRING_PAYMENT_AMOUNT` and
`RECURRING_PAYMENT_WEBHOOK`. -/
structure WebhookEnv where
  getPayment : String → Except ErrObj Payment
  createSubscription : SubParams → Except ErrObj Subscription
  updateDataverse : String → Bool → Except ErrObj Unit
  now : Nat
  recurringPaymentAmount : String
  recurringPaymentWebhook : String

/-- The argument record both webhook handlers build for
`customerSubscriptions.create`: fixed currency `EUR`, amount from
configuration, `times: 12`, `interval: '1 days'`, start date 30 days
after invocation, configured webhook URL.  The two variants differ only
in the `description` field (`"Recurring payment"` vs `""`). -/
def mkSubParams (env : WebhookEnv) (customerId : String) (description : String) : SubParams :=
  { customerId := customerId
    currency := "EUR"
    value := env.recurringPaymentAmount
    times := 12
    interval := "1 days"
    startDate := env.now + 30
    description := description
    webhookUrl := env.recurringPaymentWebhook }

/-- Try block of the canonical (form-encoded) webhook handler
`initializeRecurringPayment`: parse the form body, extract `id`; on a
missing or empty id answer 400; fetch the payment; if its status is not
`"paid"` answer 200 `received`; otherwise create the subscription, derive
the activation flag (`status === "active"`), write it to Dataverse and
answer 200 `success:true`.  Returns `Except.error e` when a step raises,
together with the calls issued so far (the raising call included). -/
def tryRecurringPaymentForm (env : WebhookEnv) (bodyE : Except ErrObj String) :
    Except ErrObj HttpResponse × List Call :=
  match bodyE with
  | .error e => (.error e, [])
  | .ok bodyText =>
    match formGet bodyText "id" with
    | none => (.ok { status := 400, body := RespBody.errorOnly "Missing payment ID" }, [])
    | some pid =>
      if pid = "" then
        (.ok { status := 400, body := RespBody.errorOnly "Missing payment ID" }, [])
      else
        match env.getPayment pid with
        | .error e => (.error e, [Call.getPayment pid])
        | .ok payment =>
          if payment.status ≠ "paid" then
            (.ok { status := 200, body := RespBody.received }, [Call.getPayment pid])
          else
            let params := mkSubParams env payment.customerId "Recurring payment"
            match env.createSubscription params with
            | .error e => (.error e, [Call.getPayment pid, Call.createSubscription params])
            | .ok sub =>
              let flag := sub.status == "active"
              match env.updateDataverse payment.customerId flag with
              | .error e =>
                (.error e,
                  [Call.getPayment pid, Call.createSubscription params,
                    Call.updateDataverse payment.customerId flag])
              | .ok _ =>
                (.ok { status := 200, body := RespBody.successOnly },
                  [Call.getPayment pid, Call.createSubscription params,
                    Call.updateDataverse payment.customerId flag])

/-- The canonical (form-encoded) webhook handler: the try block wrapped in
the top-level catch, which maps any raised error through `catchResp`. -/
def initializeRecurringPaymentForm (env : WebhookEnv) (bodyE : Except ErrObj String) :
    HttpResponse × List Call :=
  match tryRecurringPaymentForm env bodyE with
  | (.ok r, t) => (r, t)
  | (.error e, t) => (catchResp e, t)

/-- Parsed JSON body of the legacy webhook variant:
`const \x7b customerId, success \x7d = requestBody`. -/
structure LegacyBody where
  customerId : String
  success : Bool
deriving DecidableEq, Repr

/-- Try block of the legacy (JSON) webhook handler: parse the body; if
`success` is falsy answer 400 without any external call; otherwise create
the subscription (description `""`), derive the activation flag, write it
to Dataverse and answer 200 `success:true`. -/
def tryRecurringPaymentJson (env : WebhookEnv) (bodyE : Except ErrObj LegacyBody) :
    Except ErrObj HttpResponse × List Call :=
  match bodyE with
  | .error e => (.error e, [])
  | .ok b =>
    if !b.success then
      (.ok { status := 400, body := RespBody.errorOnly "Payment was not successful" }, [])
    else
      let params := mkSubParams env b.customerId ""
      match env.createSubscription params with
      | .error e => (.error e, [Call.createSubscription params])
      | .ok sub =>
        let flag := sub.status == "active"
        match env.updateDataverse b.customerId flag with
        | .error e =>
          (.error e, [Call.createSubscription params, Call.updateDataverse b.customerId flag])
        | .ok _ =>
          (.ok { status := 200, body := RespBody.successOnly },
            [Call.createSubscription params, Call.updateDataverse b.customerId flag])

/-- The legacy (JSON) webhook handler: try block plus top-level catch. -/
def initializeRecurringPaymentJson (env : WebhookEnv) (bodyE : Except ErrObj LegacyBody) :
    HttpResponse × List Call :=
  match tryRecurringPaymentJson env bodyE with
  | (.ok r, t) => (r, t)
  | (.error e, t) => (catchResp e, t)

/-- JavaScript `email.split('@')[0]`: the part of the email address
before the first `@` (the whole string when there is none). -/
def emailLocalPart (email : String) : String :=
  ⟨(splitOnChar (Char.ofNat 64) email.toList).headD []⟩

/-- Parsed JSON body of `initializeSubscription`:
`const \x7b email, name, amount \x7d = requestBody`; each field may be
absent. -/
structure CreatorBody where
  email : Option String
  name : Option String
  amount : Option String
deriving DecidableEq, Repr

/-- Parameters `initializeSubscription` passes to `POST /payments`. -/
structure PaymentParams where
  currency : String
  value : String
  webhookUrl : String
  customerId : String
  sequenceType : String
deriving DecidableEq, Repr

/-- The fields of the `POST /payments` response the handler reads:
`data.id` and `data._links.checkout.href`. -/
structure PaymentResult where
  id : String
  checkoutUrl : String
deriving DecidableEq, Repr

/-- One external call issued by `initializeSubscription`. -/
inductive CCall where
  | createCustomer (email : String) (name : String)
  | writeDataverse (customerId : String) (email : String)
  | createPayment (p : PaymentParams)
deriving DecidableEq, Repr

/-- Whether a call is the first-payment creation. -/
def CCall.isCreatePayment : CCall → Bool
  | .createPayment _ => true
  | _ => false

/-- Environment of `initializeSubscription`: customer creation
(`POST /customers`, yielding the new customer id), the record-store write
`writeCustomerToDataverse`, first-payment creation (`POST /payments`),
and the configured `WEBHOOK_URL`. -/
structure CreatorEnv where
  createCustomer : String → String → Except ErrObj String
  writeCustomerToDataverse : String → String → Except ErrObj Unit
  createPayment : PaymentParams → Except ErrObj PaymentResult
  webhookUrl : String

/-- Try block of `initializeSubscription`: parse the body; if `email` is
falsy answer 400; create the customer with
`name: name || email.split('@')[0]`; attempt the Dataverse write inside an
inner try/catch whose failure is swallowed (the call is recorded, its
result ignored); create the first payment with
`value: amount || "0.01"`, currency EUR, `sequenceType: "first"` and the
configured webhook URL; answer 200 with customer id, payment id and
checkout URL. -/
def tryInitializeSubscription (env : CreatorEnv) (bodyE : Except ErrObj CreatorBody) :
    Except ErrObj HttpResponse × List CCall :=
  match bodyE with
  | .error e => (.error e, [])
  | .ok b =>
    match b.email with
    | none => (.ok { status := 400, body := RespBody.errorOnly "Email address is required" }, [])
    | some email =>
      if email = "" then
        (.ok { status := 400, body := RespBody.errorOnly "Email address is required" }, [])
      else
        let name := jsOrStr b.name (emailLocalPart email)
        match env.createCustomer email name with
        | .error e => (.error e, [CCall.createCustomer email name])
        | .ok customerId =>
          let params : PaymentParams :=
            { currency := "EUR"
              value := jsOrStr b.amount "0.01"
              webhookUrl := env.webhookUrl
              customerId := customerId
              sequenceType := "first" }
          match env.createPayment params with
          | .error e =>
            (.error e,
              [CCall.createCustomer email name, CCall.writeDataverse customerId email,
                CCall.createPayment params])
          | .ok pr =>
            (.ok { status := 200
                   body := RespBody.creatorSuccess customerId pr.id pr.checkoutUrl },
              [CCall.createCustomer email name, CCall.writeDataverse customerId email,
                CCall.createPayment params])

/-- The `initializeSubscription` handler: try block plus top-level catch. -/
def initializeSubscription (env : CreatorEnv) (bodyE : Except ErrObj CreatorBody) :
    HttpResponse × List CCall :=
  match tryInitializeSubscription env bodyE with
  | (.ok r, t) => (r, t)
  | (.error e, t) => (catchResp e, t)

/-- An inbound HTTP request as seen by `subscriptionValidatorTest`:
method, headers and optional body. -/
structure VTestRequest where
  method : String
  headers : List (String × String)
  body : Option String
deriving DecidableEq, Repr

/-- Response of `subscriptionValidatorTest`. -/
structure VTestResponse where
  body : Bool
deriving DecidableEq, Repr

/-- The `subscriptionValidatorTest` handler: logs the body and returns
`\x7b body: true \x7d` unconditionally. -/
def subscriptionValidatorTest (_req : VTestRequest) : VTestResponse :=
  { body := true }

/-- Concrete webhook environment: payment resolves as paid, the created
subscription is active, every call succeeds. -/
def envActive : WebhookEnv :=
  { getPayment := fun pid => Except.ok { id := pid, status := "paid", customerId := "cst_1" }
    createSubscription := fun _ => Except.ok { status := "active" }
    updateDataverse := fun _ _ => Except.ok ()
    now := 20000
    recurringPaymentAmount := "25.00"
    recurringPaymentWebhook := "https://example.org/hook" }

/-- Concrete webhook environment: the created subscription has status
"pending". -/
def envPending : WebhookEnv :=
  { envActive with createSubscription := fun _ => Except.ok { status := "pending" } }

/-- Concrete webhook environment: the payment resolves with status
"open". -/
def envOpen : WebhookEnv :=
  { envActive with
    getPayment := fun pid => Except.ok { id := pid, status := "open", customerId := "cst_1" } }

/-- Concrete error object carried by a failing payment lookup. -/
def errNotFound : ErrObj :=
  { responseStatus := some 404
    responseDetail := some "Payment not found"
    message := some "Request failed" }

/-- Concrete webhook environment: the payment lookup raises
`errNotFound`. -/
def envGetFail : WebhookEnv :=
  { envActive with getPayment := fun _ => Except.error errNotFound }

/-- Concrete error object carried by a failing record-store write. -/
def errDataverse : ErrObj :=
  { responseStatus := some 503
    responseDetail := none
    message := some "Dataverse write failed" }

/-- Concrete webhook environment: the record-store write raises
`errDataverse`. -/
def envDvFail : WebhookEnv :=
  { envActive with updateDataverse := fun _ _ => Except.error errDataverse }

/-- Concrete creator environment: every call succeeds. -/
def cenvOk : CreatorEnv :=
  { createCustomer := fun _ _ => Except.ok "cst_9"
    writeCustomerToDataverse := fun _ _ => Except.ok ()
    createPayment := fun _ => Except.ok { id := "tr_9", checkoutUrl := "https://pay.example/chk" }
    webhookUrl := "https://example.org/hook" }

/-- Concrete creator environment: the record-store write raises
`errDataverse`. -/
def cenvDvFail : CreatorEnv :=
  { cenvOk with writeCustomerToDataverse := fun _ _ => Except.error errDataverse }

/-- C10: `subscriptionValidatorTest` answers the constant body `true` for
every request, so its output is independent of method, headers and
body. -/
theorem C10_validator_constant :
    (∀ req : VTestRequest, subscriptionValidatorTest req = { body := true }) ∧
    (∀ r₁ r₂ : VTestRequest, subscriptionValidatorTest r₁ = subscriptionValidatorTest r₂) := by
  exact ⟨fun _ => rfl, fun _ _ => rfl⟩

/-- C7: for a JSON payload whose `success` flag is false, the legacy
webhook handler answers HTTP 400 with the static message
"Payment was not successful" and issues no external call at all. -/
theorem C7_legacy_reject (env : WebhookEnv) (b : LegacyBody) (h : b.success = false) :
    initializeRecurringPaymentJson env (Except.ok b)
      = ({ status := 400, body := RespBody.errorOnly "Payment was not successful" }, []) := by
  simp [initializeRecurringPaymentJson, tryRecurringPaymentJson, h]

/-- C7 witness: the theorem applied at a concrete falsy payload. -/
theorem C7_legacy_reject_witness :
    initializeRecurringPaymentJson envActive
        (Except.ok { customerId := "cst_1", success := false })
      = ({ status := 400, body := RespBody.errorOnly "Payment was not successful" }, []) :=
  C7_legacy_reject envActive { customerId := "cst_1", success := false } rfl

/-- C3: for a form webhook whose payment id resolves to a Payment Record
whose status is not "paid", the canonical handler answers HTTP 200 with
`received:true` and the only external call issued is the payment lookup:
no subscription creation and no record-store write occur. -/
theorem C3_nonpaid_acknowledged (env : WebhookEnv) (body pid : String) (payment : Payment)
    (hid : formGet body "id" = some pid) (hpid : pid ≠ "")
    (hget : env.getPayment pid = Except.ok payment)
    (hstatus : payment.status ≠ "paid") :
    initializeRecurringPaymentForm env (Except.ok body)
      = ({ status := 200, body := RespBody.received }, [Call.getPayment pid]) := by
  simp [initializeRecurringPaymentForm, tryRecurringPaymentForm, hid, hpid, hget, hstatus]

/-- C3 witness: the theorem applied to a concrete webhook whose payment
has status "open". -/
theorem C3_nonpaid_acknowledged_witness :
    initializeRecurringPaymentForm envOpen (Except.ok "id=tr_9")
      = ({ status := 200, body := RespBody.received }, [Call.getPayment "tr_9"]) :=
  C3_nonpaid_acknowledged envOpen "id=tr_9" "tr_9"
    { id := "tr_9", status := "open", customerId := "cst_1" }
    (by decide) (by decide) rfl (by decide)

/-- C6: whenever the canonical webhook handler issues a record-store
write, the activation flag it writes is true if and only if the created
Subscription Record status equals "active". -/
theorem C6_activation_flag (env : WebhookEnv) (body pid : String) (payment : Payment)
    (sub : Subscription)
    (hid : formGet body "id" = some pid) (hpid : pid ≠ "")
    (hget : env.getPayment pid = Except.ok payment)
    (hstatus : payment.status = "paid")
    (hsub : env.createSubscription (mkSubParams env payment.customerId "Recurring payment")
      = Except.ok sub) :
    ∀ cid flag,
      Call.updateDataverse cid flag ∈ (initializeRecurringPaymentForm env (Except.ok body)).snd
        → (flag = true ↔ sub.status = "active") := by
  intro cid flag hmem
  cases hdv : env.updateDataverse payment.customerId (sub.status == "active") <;>
    simp [initializeRecurringPaymentForm, tryRecurringPaymentForm, hid, hpid, hget, hstatus,
      hsub, hdv] at hmem <;>
    simp_all

/-- C6 witness: the theorem applied to a concrete run whose created
subscription is active; the flag written there is true. -/
theorem C6_activation_flag_witness :
    (true = true ↔ Subscription.status { status := "active" } = "active") :=
  C6_activation_flag envActive "id=tr_1" "tr_1"
    { id := "tr_1", status := "paid", customerId := "cst_1" } { status := "active" }
    (by decide) (by decide) rfl rfl rfl "cst_1" true (by decide)

/-- C9: when the amount field of an initial-subscription request is absent
or empty, the first payment is created with the fixed default value
"0.01" in EUR. -/
theorem C9_default_amount (env : CreatorEnv) (b : CreatorBody) (email cid : String)
    (hemail : b.email = some email) (hne : email ≠ "")
    (hamount : b.amount = none ∨ b.amount = some "")
    (hcust : env.createCustomer email (jsOrStr b.name (emailLocalPart email))
      = Except.ok cid) :
    (∃ p, CCall.createPayment p ∈ (initializeSubscription env (Except.ok b)).snd
        ∧ p.value = "0.01" ∧ p.currency = "EUR") ∧
    ∀ p, CCall.createPayment p ∈ (initializeSubscription env (Except.ok b)).snd
        → p.value = "0.01" := by
  have hval : jsOrStr b.amount "0.01" = "0.01" := by
    rcases hamount with h | h <;> simp [jsOrStr, h]
  have htrace : (initializeSubscription env (Except.ok b)).snd
      = [CCall.createCustomer email (jsOrStr b.name (emailLocalPart email)),
          CCall.writeDataverse cid email,
          CCall.createPayment
            { currency := "EUR", value := "0.01", webhookUrl := env.webhookUrl,
              customerId := cid, sequenceType := "first" }] := by
    cases hpay : env.createPayment
        { currency := "EUR", value := "0.01", webhookUrl := env.webhookUrl,
          customerId := cid, sequenceType := "first" } <;>
      simp [initializeSubscription, tryInitializeSubscription, hemail, hne, hcust, hval, hpay]
  refine ⟨⟨{ currency := "EUR", value := "0.01", webhookUrl := env.webhookUrl,
             customerId := cid, sequenceType := "first" }, ?_, rfl, rfl⟩, ?_⟩
  · rw [htrace]; simp
  · intro p hp
    rw [htrace] at hp
    simp at hp
    subst hp
    rfl

/-- C9 witness: the theorem applied to a concrete request with no amount
field. -/
theorem C9_default_amount_witness :
    (∃ p, CCall.createPayment p
        ∈ (initializeSubscription cenvOk
            (Except.ok { email := some "jan@example.com", name := none, amount := none })).snd
        ∧ p.value = "0.01" ∧ p.currency = "EUR") ∧
    ∀ p, CCall.createPayment p
        ∈ (initializeSubscription cenvOk
            (Except.ok { email := some "jan@example.com", name := none, amount := none })).snd
        → p.value = "0.01" :=
  C9_default_amount cenvOk { email := some "jan@example.com", name := none, amount := none }
    "jan@example.com" "cst_9" rfl (by decide) (Or.inl rfl) rfl

/-- C5: a record-store failure during initial creation is swallowed: the
handler still issues the first-payment creation and answers HTTP 200 with
success:true, the customer id, the payment id and the checkout URL,
exactly as when the write succeeds. -/
theorem C5_dataverse_swallowed (env : CreatorEnv) (b : CreatorBody) (email cid : String)
    (e : ErrObj) (pr : PaymentResult)
    (hemail : b.email = some email) (hne : email ≠ "")
    (hcust : env.createCustomer email (jsOrStr b.name (emailLocalPart email)) = Except.ok cid)
    (_hdv : env.writeCustomerToDataverse cid email = Except.error e)
    (hpay : env.createPayment
        { currency := "EUR", value := jsOrStr b.amount "0.01", webhookUrl := env.webhookUrl,
          customerId := cid, sequenceType := "first" } = Except.ok pr) :
    (initializeSubscription env (Except.ok b)).fst
        = { status := 200, body := RespBody.creatorSuccess cid pr.id pr.checkoutUrl } ∧
    CCall.createPayment
        { currency := "EUR", value := jsOrStr b.amount "0.01", webhookUrl := env.webhookUrl,
          customerId := cid, sequenceType := "first" }
      ∈ (initializeSubscription env (Except.ok b)).snd := by
  refine ⟨?_, ?_⟩ <;>
    simp [initializeSubscription, tryInitializeSubscription, hemail, hne, hcust, hpay]

/-- C5 witness: the theorem applied to a concrete request against the
environment whose record-store write raises. -/
theorem C5_dataverse_swallowed_witness :
    (initializeSubscription cenvDvFail
        (Except.ok { email := some "jan@example.com", name := none, amount := some "10.00" })).fst
        = { status := 200
            body := RespBody.creatorSuccess "cst_9" "tr_9" "https://pay.example/chk" } ∧
    CCall.createPayment
        { currency := "EUR", value := jsOrStr (some "10.00") "0.01",
          webhookUrl := cenvDvFail.webhookUrl, customerId := "cst_9", sequenceType := "first" }
      ∈ (initializeSubscription cenvDvFail
          (Except.ok { email := some "jan@example.com", name := none, amount := some "10.00" })).snd :=
  C5_dataverse_swallowed cenvDvFail
    { email := some "jan@example.com", name := none, amount := some "10.00" }
    "jan@example.com" "cst_9" errDataverse
    { id := "tr_9", checkoutUrl := "https://pay.example/chk" }
    rfl (by decide) rfl rfl rfl

/-- C2: every exception raised by a step of the canonical webhook handler
(body parsing, payment lookup, subscription creation or record-store
write) is caught at the top level: the body is a success:false failure
object; the status is the failing call reported HTTP status when a
genuine (nonzero) one is present, else 500; the message is the upstream
response detail when nonempty, else the exception message when nonempty,
else the fallback "Unknown error". -/
theorem C2_catch_translation (env : WebhookEnv) (bodyE : Except ErrObj String) (e : ErrObj)
    (hraise : (tryRecurringPaymentForm env bodyE).fst = Except.error e) :
    (∃ msg, (initializeRecurringPaymentForm env bodyE).fst.body = RespBody.failure msg) ∧
    (∀ s, e.responseStatus = some s → s ≠ 0
      → (initializeRecurringPaymentForm env bodyE).fst.status = s) ∧
    (e.responseStatus = none → (initializeRecurringPaymentForm env bodyE).fst.status = 500) ∧
    (∀ d, e.responseDetail = some d → d ≠ ""
      → (initializeRecurringPaymentForm env bodyE).fst.body = RespBody.failure d) ∧
    ((e.responseDetail = none ∨ e.responseDetail = some "") →
      ∀ m, e.message = some m → m ≠ ""
        → (initializeRecurringPaymentForm env bodyE).fst.body = RespBody.failure m) ∧
    ((e.responseDetail = none ∨ e.responseDetail = some "") →
      (e.message = none ∨ e.message = some "")
        → (initializeRecurringPaymentForm env bodyE).fst.body
            = RespBody.failure "Unknown error") := by
  have hrun : (initializeRecurringPaymentForm env bodyE).fst = catchResp e := by
    unfold initializeRecurringPaymentForm
    rcases htry : tryRecurringPaymentForm env bodyE with ⟨fe, t⟩
    rw [htry] at hraise
    simp at hraise
    subst hraise
    rfl
  rw [hrun]
  refine ⟨⟨_, rfl⟩, ?_, ?_, ?_, ?_, ?_⟩
  · intro s hs hs0
    simp [catchResp, jsOrNat, hs, hs0]
  · intro h
    simp [catchResp, jsOrNat, h]
  · intro d hd hdne
    simp [catchResp, jsOrStr, hd, hdne]
  · intro hrd m hm hmne
    rcases hrd with h | h <;> simp [catchResp, jsOrStr, h, hm, hmne]
  · intro hrd hm
    rcases hrd with h | h <;> rcases hm with h2 | h2 <;> simp [catchResp, jsOrStr, h, h2]

/-- C2 witness: the theorem applied to a concrete run whose payment
lookup raises `errNotFound`. -/
theorem C2_catch_translation_witness :
    (∃ msg, (initializeRecurringPaymentForm envGetFail (Except.ok "id=tr_1")).fst.body
        = RespBody.failure msg) ∧
    (∀ s, errNotFound.responseStatus = some s → s ≠ 0
      → (initializeRecurringPaymentForm envGetFail (Except.ok "id=tr_1")).fst.status = s) ∧
    (errNotFound.responseStatus = none
      → (initializeRecurringPaymentForm envGetFail (Except.ok "id=tr_1")).fst.status = 500) ∧
    (∀ d, errNotFound.responseDetail = some d → d ≠ ""
      → (initializeRecurringPaymentForm envGetFail (Except.ok "id=tr_1")).fst.body
          = RespBody.failure d) ∧
    ((errNotFound.responseDetail = none ∨ errNotFound.responseDetail = some "") →
      ∀ m, errNotFound.message = some m → m ≠ ""
        → (initializeRecurringPaymentForm envGetFail (Except.ok "id=tr_1")).fst.body
            = RespBody.failure m) ∧
    ((errNotFound.responseDetail = none ∨ errNotFound.responseDetail = some "") →
      (errNotFound.message = none ∨ errNotFound.message = some "")
        → (initializeRecurringPaymentForm envGetFail (Except.ok "id=tr_1")).fst.body
            = RespBody.failure "Unknown error") :=
  C2_catch_translation envGetFail (Except.ok "id=tr_1") errNotFound rfl

/-- C4: when the record-store write raises after the subscription was
created, the canonical handler answers success:false with a non-200
status sourced from the failure: the reported (nonzero) HTTP status when
present, else 500. -/
theorem C4_dataverse_failure_fatal (env : WebhookEnv) (body pid : String) (payment : Payment)
    (sub : Subscription) (e : ErrObj)
    (hid : formGet body "id" = some pid) (hpid : pid ≠ "")
    (hget : env.getPayment pid = Except.ok payment)
    (hstatus : payment.status = "paid")
    (hsub : env.createSubscription (mkSubParams env payment.customerId "Recurring payment")
      = Except.ok sub)
    (hdv : env.updateDataverse payment.customerId (sub.status == "active") = Except.error e)
    (h200 : e.responseStatus ≠ some 200) :
    (∃ msg, (initializeRecurringPaymentForm env (Except.ok body)).fst.body
        = RespBody.failure msg) ∧
    (initializeRecurringPaymentForm env (Except.ok body)).fst.status ≠ 200 ∧
    (∀ s, e.responseStatus = some s → s ≠ 0
      → (initializeRecurringPaymentForm env (Except.ok body)).fst.status = s) ∧
    (e.responseStatus = none
      → (initializeRecurringPaymentForm env (Except.ok body)).fst.status = 500) := by
  have hrun : (initializeRecurringPaymentForm env (Except.ok body)).fst = catchResp e := by
    simp [initializeRecurringPaymentForm, tryRecurringPaymentForm, hid, hpid, hget, hstatus,
      hsub, hdv]
  rw [hrun]
  refine ⟨⟨_, rfl⟩, ?_, ?_, ?_⟩
  · cases hrs : e.responseStatus with
    | none => simp [catchResp, jsOrNat, hrs]
    | some s =>
      have hs : s ≠ 200 := by rw [hrs] at h200; simpa using h200
      by_cases h0 : s = 0 <;> simp [catchResp, jsOrNat, hrs, h0, hs]
  · intro s hs hs0
    simp [catchResp, jsOrNat, hs, hs0]
  · intro h
    simp [catchResp, jsOrNat, h]

/-- C4 witness: the theorem applied to a concrete run whose record-store
write raises `errDataverse` (reported status 503). -/
theorem C4_dataverse_failure_fatal_witness :
    (∃ msg, (initializeRecurringPaymentForm envDvFail (Except.ok "id=tr_1")).fst.body
        = RespBody.failure msg) ∧
    (initializeRecurringPaymentForm envDvFail (Except.ok "id=tr_1")).fst.status ≠ 200 ∧
    (∀ s, errDataverse.responseStatus = some s → s ≠ 0
      → (initializeRecurringPaymentForm envDvFail (Except.ok "id=tr_1")).fst.status = s) ∧
    (errDataverse.responseStatus = none
      → (initializeRecurringPaymentForm envDvFail (Except.ok "id=tr_1")).fst.status = 500) :=
  C4_dataverse_failure_fatal envDvFail "id=tr_1" "tr_1"
    { id := "tr_1", status := "paid", customerId := "cst_1" } { status := "active" }
    errDataverse (by decide) (by decide) rfl rfl rfl rfl (by decide)

/-- C8: whenever the canonical webhook handler reaches subscription
creation, it invokes it with fixed currency EUR, the configured amount,
a fixed count of 12 occurrences, the fixed daily interval "1 days", a
start date exactly 30 days after the invocation time, and the configured
webhook URL. -/
theorem C8_subscription_parameters (env : WebhookEnv) (body pid : String) (payment : Payment)
    (hid : formGet body "id" = some pid) (hpid : pid ≠ "")
    (hget : env.getPayment pid = Except.ok payment)
    (hstatus : payment.status = "paid") :
    (∃ p, Call.createSubscription p
        ∈ (initializeRecurringPaymentForm env (Except.ok body)).snd) ∧
    ∀ p, Call.createSubscription p ∈ (initializeRecurringPaymentForm env (Except.ok body)).snd
      → p.currency = "EUR" ∧ p.value = env.recurringPaymentAmount ∧ p.times = 12
        ∧ p.interval = "1 days" ∧ p.startDate = env.now + 30
        ∧ p.webhookUrl = env.recurringPaymentWebhook := by
  have key : ∀ p, Call.createSubscription p
      ∈ (initializeRecurringPaymentForm env (Except.ok body)).snd
      ↔ p = mkSubParams env payment.customerId "Recurring payment" := by
    intro p
    cases hsub : env.createSubscription (mkSubParams env payment.customerId "Recurring payment")
      with
    | error e =>
      simp [initializeRecurringPaymentForm, tryRecurringPaymentForm, hid, hpid, hget, hstatus,
        hsub]
    | ok sub =>
      cases hdv : env.updateDataverse payment.customerId (sub.status == "active") <;>
        simp [initializeRecurringPaymentForm, tryRecurringPaymentForm, hid, hpid, hget, hstatus,
          hsub, hdv]
  refine ⟨⟨_, (key _).mpr rfl⟩, ?_⟩
  intro p hp
  have hpe := (key p).mp hp
  subst hpe
  simp [mkSubParams]

/-- C8 witness: the theorem applied to a concrete paid webhook. -/
theorem C8_subscription_parameters_witness :
    (∃ p, Call.createSubscription p
        ∈ (initializeRecurringPaymentForm envActive (Except.ok "id=tr_1")).snd) ∧
    ∀ p, Call.createSubscription p
        ∈ (initializeRecurringPaymentForm envActive (Except.ok "id=tr_1")).snd
      → p.currency = "EUR" ∧ p.value = envActive.recurringPaymentAmount ∧ p.times = 12
        ∧ p.interval = "1 days" ∧ p.startDate = envActive.now + 30
        ∧ p.webhookUrl = envActive.recurringPaymentWebhook :=
  C8_subscription_parameters envActive "id=tr_1" "tr_1"
    { id := "tr_1", status := "paid", customerId := "cst_1" }
    (by decide) (by decide) rfl rfl

/-- C1 counterexample: in a run whose form body resolves to a paid
payment, whose subscription creation succeeds with status "pending" (not
"active") and whose record-store write succeeds, the canonical handler
still answers HTTP 200 with success:true, refuting that success:true is
reported only when the created Subscription Record status is exactly
"active".  Subscription creation is still called exactly once. -/
theorem C1_success_despite_pending_cex :
    (initializeRecurringPaymentForm envPending (Except.ok "id=tr_7")).fst
      = { status := 200, body := RespBody.successOnly } ∧
    List.countP Call.isCreateSub
        (initializeRecurringPaymentForm envPending (Except.ok "id=tr_7")).snd = 1 ∧
    envPending.createSubscription (mkSubParams envPending "cst_1" "Recurring payment")
      = Except.ok { status := "pending" } ∧
    ({ status := "pending" } : Subscription).status ≠ "active" :=
  ⟨by decide, by decide, rfl, by decide⟩

/-- C1 amended: for a form webhook whose payment id resolves to a paid
Payment Record, the canonical handler calls subscription creation exactly
once, and the HTTP 200 success:true response is returned precisely when
subscription creation and the record-store write both succeed — the
created Subscription Record status being "active" governs only the
activation flag written to the record store, not the response body. -/
theorem C1_paid_flow (env : WebhookEnv) (body pid : String) (payment : Payment)
    (hid : formGet body "id" = some pid) (hpid : pid ≠ "")
    (hget : env.getPayment pid = Except.ok payment)
    (hstatus : payment.status = "paid") :
    List.countP Call.isCreateSub (initializeRecurringPaymentForm env (Except.ok body)).snd = 1 ∧
    ((initializeRecurringPaymentForm env (Except.ok body)).fst
        = { status := 200, body := RespBody.successOnly }
      ↔ ∃ sub, env.createSubscription (mkSubParams env payment.customerId "Recurring payment")
            = Except.ok sub
          ∧ env.updateDataverse payment.customerId (sub.status == "active")
            = Except.ok ()) := by
  cases hsub : env.createSubscription (mkSubParams env payment.customerId "Recurring payment")
    with
  | error e =>
    have htrace : initializeRecurringPaymentForm env (Except.ok body)
        = (catchResp e,
            [Call.getPayment pid,
              Call.createSubscription (mkSubParams env payment.customerId "Recurring payment")])
        := by
      simp [initializeRecurringPaymentForm, tryRecurringPaymentForm, hid, hpid, hget, hstatus,
        hsub]
    constructor
    · simp [htrace, List.countP_cons, Call.isCreateSub]
    · simp [htrace, hsub, catchResp]
  | ok sub =>
    cases hdv : env.updateDataverse payment.customerId (sub.status == "active") with
    | error e =>
      have htrace : initializeRecurringPaymentForm env (Except.ok body)
          = (catchResp e,
              [Call.getPayment pid,
                Call.createSubscription (mkSubParams env payment.customerId "Recurring payment"),
                Call.updateDataverse payment.customerId (sub.status == "active")]) := by
        simp [initializeRecurringPaymentForm, tryRecurringPaymentForm, hid, hpid, hget, hstatus,
          hsub, hdv]
      constructor
      · simp [htrace, List.countP_cons, Call.isCreateSub]
      · simp [htrace, hsub, hdv, catchResp]
    | ok u =>
      have htrace : initializeRecurringPaymentForm env (Except.ok body)
          = ({ status := 200, body := RespBody.successOnly },
              [Call.getPayment pid,
                Call.createSubscription (mkSubParams env payment.customerId "Recurring payment"),
                Call.updateDataverse payment.customerId (sub.status == "active")]) := by
        simp [initializeRecurringPaymentForm, tryRecurringPaymentForm, hid, hpid, hget, hstatus,
          hsub, hdv]
      constructor
      · simp [htrace, List.countP_cons, Call.isCreateSub]
      · simp [htrace, hsub, hdv]

/-- C1 witness: the amended theorem applied to a concrete paid webhook in
the all-success environment. -/
theorem C1_paid_flow_witness :
    List.countP Call.isCreateSub
        (initializeRecurringPaymentForm envActive (Except.ok "id=tr_1")).snd = 1 ∧
    ((initializeRecurringPaymentForm envActive (Except.ok "id=tr_1")).fst
        = { status := 200, body := RespBody.successOnly }
      ↔ ∃ sub, envActive.createSubscription (mkSubParams envActive "cst_1" "Recurring payment")
            = Except.ok sub
          ∧ envActive.updateDataverse "cst_1" (sub.status == "active") = Except.ok ()) :=
  C1_paid_flow envActive "id=tr_1" "tr_1"
    { id := "tr_1", status := "paid", customerId := "cst_1" }
    (by decide) (by decide) rfl rfl
